import Mathlib

/-!
Verification of the flouri skills/tools layer.

Shallow embedding of the repository's tool registry, skill activation
model and tool-manager operations, together with the history and
ROS2-completion helpers the claims mention.

The tool-manager module (`flouri/tools/tool_manager/tool_manager_tools.py`),
the registry (`flouri/tools/registry.py`, `flouri/tools/base.py`) and the
config persistence layer (`flouri/config/config_manager.py`) are not present
in the source tree; only their unit tests and callers are. Their definitions
below are modelled from the specification (sections 3, 4.2, 4.3, 6 and 7 of
spec.md), as marked in each doc comment. The remaining definitions are
translated directly from the source files named in their doc comments.
-/

namespace Flouri

/-- Modelled from the spec: a Skill (spec section 3) bundles a name, a
description and an ordered list of tools; each tool is a (name, description)
pair. The callable itself is irrelevant to the claims and is omitted. -/
structure Skill where
  name : String
  description : String
  tools : List (String × String)
deriving Repr, DecidableEq

/-- Modelled from the spec: the SkillRegistry (spec section 3) is the ordered
catalog of all known skills, built from a fixed registration list. -/
structure SkillRegistry where
  skills : List Skill
deriving Repr, DecidableEq

/-- Modelled from the spec: `get_all_tool_names` (spec section 4.2) — every
tool name across every registered skill, in registration order of skills and
tool order within a skill. -/
def SkillRegistry.get_all_tool_names (r : SkillRegistry) : List String :=
  (r.skills.map (fun s => s.tools.map Prod.fst)).flatten

/-- Modelled from the spec: `get_tool_names_for_skills` (spec section 4.2) —
union of tool names belonging to the given skills, skipping unknown skill
names silently. -/
def SkillRegistry.get_tool_names_for_skills (r : SkillRegistry)
    (skill_names : List String) : List String :=
  ((r.skills.filter (fun s => skill_names.contains s.name)).map
    (fun s => s.tools.map Prod.fst)).flatten

/-- Modelled from the spec: `get_skill_for_tool` (spec section 4.2) — reverse
lookup from a tool name to the owning skill name, `none` if not found. -/
def SkillRegistry.get_skill_for_tool (r : SkillRegistry) (tool_name : String) :
    Option String :=
  (r.skills.find? (fun s => (s.tools.map Prod.fst).contains tool_name)).map Skill.name

/-- Modelled from the spec: `get_all_tools_info` (spec section 4.2) —
introspection listing, one (tool name, description, owning skill) triple per
registered tool. -/
def SkillRegistry.get_all_tools_info (r : SkillRegistry) :
    List (String × String × String) :=
  (r.skills.map (fun s => s.tools.map (fun t => (t.1, t.2, s.name)))).flatten

/-- Modelled from the spec: `get_enabled_tools` (spec section 4.2) — resolves
each requested name to its Tool wrapper, dropping names with no matching tool.
Wrappers are represented by their resolved tool names. -/
def SkillRegistry.get_enabled_tools (r : SkillRegistry)
    (tool_names : List String) : List String :=
  tool_names.filter (fun n => r.get_all_tool_names.contains n)

/-- Modelled from the spec: the ConfigManager collaborator (spec sections 3
and 6) persists the enabled-skill set. `readFail`/`writeFail` model the
I/O or permission exceptions its read and write operations may raise
(`none` means the operation succeeds). -/
structure ConfigManager where
  enabled_skills : List String
  readFail : Option String := none
  writeFail : Option String := none
deriving Repr, DecidableEq

/-- Modelled from the spec: `get_enabled_skills` (spec section 6) — returns
the persisted enabled-skill names, raising only on I/O or permission
failure. -/
def ConfigManager.get_enabled_skills (c : ConfigManager) :
    Except String (List String) :=
  match c.readFail with
  | some e => Except.error e
  | none => Except.ok c.enabled_skills

/-- Idempotent insertion into the enabled-skill list: adding an
already-enabled skill is a no-op (spec section 4.3, step 2). -/
def addSkillList (l : List String) (s : String) : List String :=
  if l.contains s then l else l ++ [s]

/-- Modelled from the spec: `add_skill` (spec section 6) — idempotent; raises
on persistence failure, in which case the persisted state is unchanged
(atomic replace, spec section 4.3 step 3). -/
def ConfigManager.add_skill (c : ConfigManager) (s : String) :
    Except String ConfigManager :=
  match c.writeFail with
  | some e => Except.error e
  | none => Except.ok { c with enabled_skills := addSkillList c.enabled_skills s }

/-- Modelled from the spec: `remove_skill` (spec section 6) — idempotent
(removing an absent skill is a no-op); raises on persistence failure. -/
def ConfigManager.remove_skill (c : ConfigManager) (s : String) :
    Except String ConfigManager :=
  match c.writeFail with
  | some e => Except.error e
  | none => Except.ok { c with enabled_skills := c.enabled_skills.filter (fun x => x != s) }

/-- Result payload of a tool-manager operation (spec section 6): a mapping
with at minimum `status` and `message`; success payloads additionally carry
`enabled_tools`, `available_tools` and `count`. Absent optional fields are
`none`. -/
structure ToolResult where
  status : String
  message : String := ""
  enabled_tools : Option (List String) := none
  count : Option Nat := none
  available_tools : Option (List (String × String)) := none
deriving Repr, DecidableEq

/-- Modelled from the spec: the tool-manager helper `_get_enabled_tool_names`
(spec section 4.3) — read the enabled-skill set from config and derive tool
names via the registry (spec section 4.2). `regLoad` models obtaining the
registry, which the unit tests show may itself raise. -/
def _get_enabled_tool_names (regLoad : Except String SkillRegistry)
    (c : ConfigManager) : Except String (List String) :=
  match c.get_enabled_skills with
  | Except.error e => Except.error e
  | Except.ok skills =>
    match regLoad with
    | Except.error e => Except.error e
    | Except.ok reg => Except.ok (reg.get_tool_names_for_skills skills)

/-- Modelled from the spec: `list_enabled_tools` (spec section 4.3) — derive
the enabled tool names; on success return status success with the names and
their count, on any failure return a status error result instead of raising. -/
def list_enabled_tools (regLoad : Except String SkillRegistry)
    (c : ConfigManager) : ToolResult :=
  match _get_enabled_tool_names regLoad c with
  | Except.ok names =>
    { status := "success"
      message := "Listed enabled tools"
      enabled_tools := some names
      count := some names.length }
  | Except.error e =>
    { status := "error", message := "Failed to list enabled tools: " ++ e }

/-- Modelled from the spec: `get_available_tools` (spec section 4.3) — return
the tool name to description mapping sourced from `get_all_tools_info`; on
registry failure return status error with an empty (present) mapping and a
zero count. -/
def get_available_tools (regLoad : Except String SkillRegistry) : ToolResult :=
  match regLoad with
  | Except.error e =>
    { status := "error"
      message := "Failed to get available tools: " ++ e
      available_tools := some []
      count := some 0 }
  | Except.ok reg =>
    let info := reg.get_all_tools_info.map (fun x => (x.1, x.2.1))
    { status := "success"
      message := "Listed available tools"
      available_tools := some info
      count := some info.length }

/-- Modelled from the spec: `enable_tool` (spec section 4.3) — resolve the
owning skill (unknown tool is a terminal error with no mutation), ask config
to add that skill (persistence failure is wrapped, not re-raised, and leaves
config unchanged), then return success with a fresh derivation of the enabled
tool names from the now-current config. Returns the result together with the
persisted config state after the call. -/
def enable_tool (reg : SkillRegistry) (c : ConfigManager) (tool_name : String) :
    ToolResult × ConfigManager :=
  match reg.get_skill_for_tool tool_name with
  | none => ({ status := "error", message := "Unknown tool: " ++ tool_name }, c)
  | some s =>
    match c.add_skill s with
    | Except.error e =>
      ({ status := "error", message := "Failed to enable tool: " ++ e }, c)
    | Except.ok c2 =>
      match _get_enabled_tool_names (Except.ok reg) c2 with
      | Except.error e =>
        ({ status := "error", message := "Failed to enable tool: " ++ e }, c2)
      | Except.ok names =>
        ({ status := "success"
           message := "Enabled skill " ++ (s ++ (" for tool " ++ tool_name))
           enabled_tools := some names
           count := some names.length }, c2)

/-- Modelled from the spec: `disable_tool` (spec section 4.3) — symmetric to
`enable_tool`, removing the owning skill from the enabled set, with the same
unknown-tool and failure-message conventions. -/
def disable_tool (reg : SkillRegistry) (c : ConfigManager) (tool_name : String) :
    ToolResult × ConfigManager :=
  match reg.get_skill_for_tool tool_name with
  | none => ({ status := "error", message := "Unknown tool: " ++ tool_name }, c)
  | some s =>
    match c.remove_skill s with
    | Except.error e =>
      ({ status := "error", message := "Failed to disable tool: " ++ e }, c)
    | Except.ok c2 =>
      match _get_enabled_tool_names (Except.ok reg) c2 with
      | Except.error e =>
        ({ status := "error", message := "Failed to disable tool: " ++ e }, c2)
      | Except.ok names =>
        ({ status := "success"
           message := "Disabled skill " ++ (s ++ (" for tool " ++ tool_name))
           enabled_tools := some names
           count := some names.length }, c2)

/-- From `src/flouri/tools/__init__.py` (`get_enabled_tool_names`): try to
load the ConfigManager and read the enabled skills; on any exception fall
back to all tool names from the registry; otherwise derive the tool names for
the enabled skills. `configLoad` stands for the try-block
`ConfigManager(); config_manager.get_enabled_skills()`, whose exceptions
are the ones the `except` clause catches. -/
def get_enabled_tool_names (reg : SkillRegistry)
    (configLoad : Except String (List String)) : List String :=
  match configLoad with
  | Except.error _ => reg.get_all_tool_names
  | Except.ok enabled_skills => reg.get_tool_names_for_skills enabled_skills

/-- From `src/flouri/tools/__init__.py` (`get_bash_tools`): when
`enabled_tools` is not given, derive it from config via
`get_enabled_tool_names`, then resolve the names through the registry.
The call to `set_allowlist_blacklist` only mutates the global allow/deny
lists (an excluded collaborator) and does not affect the returned tool list,
so it is omitted here. -/
def get_bash_tools (reg : SkillRegistry)
    (configLoad : Except String (List String))
    (enabled_tools : Option (List String)) : List String :=
  let resolved :=
    match enabled_tools with
    | none => get_enabled_tool_names reg configLoad
    | some ts => ts
  reg.get_enabled_tools resolved

/-- Python `str.strip()`: remove leading and trailing whitespace. Defined
structurally over the character list so that it evaluates by `decide`. -/
def pyStrip (s : String) : String :=
  ⟨((s.data.dropWhile Char.isWhitespace).reverse.dropWhile Char.isWhitespace).reverse⟩

/-- Python `str.split(sep)` with a newline separator, over character lists:
splitting the empty string yields one empty field, and every newline starts a
new field. -/
def splitNlChars : List Char → List (List Char)
  | [] => [[]]
  | c :: cs =>
    if c == '\n' then [] :: splitNlChars cs
    else
      match splitNlChars cs with
      | [] => [[c]]
      | h :: t => (c :: h) :: t

/-- Python `stdout.split("\n")` as a list of strings. -/
def splitNl (s : String) : List String :=
  (splitNlChars s.data).map (fun l => ⟨l⟩)

/-- The seen-set deduplication loop of `read_bash_history`
(`src/flourish/tools/history/history_tools.py`): keep the first occurrence of
each command, dropping later repeats. -/
def dedupKeepFirst : List String → List String
  | [] => []
  | x :: xs => x :: dedupKeepFirst (xs.filter (fun y => y != x))
termination_by l => l.length
decreasing_by
  exact Nat.lt_succ_of_le (List.length_filter_le _ _)

/-- Outcome of opening and reading the history file in `read_bash_history`:
the file may be missing, readable with the given raw lines, or raise a
permission or other error. -/
inductive HistoryFile where
  | missing
  | readable (lines : List String)
  | permissionDenied
  | otherError (msg : String)
deriving Repr, DecidableEq

/-- Result dictionary of `read_bash_history`, restricted to the keys the
claims concern. -/
structure HistoryResult where
  status : String
  entries : List String
  count : Nat
  message : String
deriving Repr, DecidableEq

/-- From `src/flourish/tools/history/history_tools.py` (`read_bash_history`):
clamp the limit into 1..1000, return success with no entries when the file is
missing, an error result on read failure, and otherwise the stripped,
non-empty, deduplicated commands taken from the most recent line backwards,
stopping at the limit (the loop's break at `limit` entries equals taking the
first `limit` elements of the full deduplication). -/
def read_bash_history (limit : Int) (file : HistoryFile) : HistoryResult :=
  let lim : Nat := if limit < 1 then 1 else if limit > 1000 then 1000 else limit.toNat
  match file with
  | HistoryFile.missing =>
    { status := "success", entries := [], count := 0
      message := "History file does not exist yet" }
  | HistoryFile.permissionDenied =>
    { status := "error", entries := [], count := 0
      message := "Permission denied reading history file" }
  | HistoryFile.otherError e =>
    { status := "error", entries := [], count := 0
      message := "Error reading history: " ++ e }
  | HistoryFile.readable lines =>
    let commands :=
      (dedupKeepFirst (((lines.reverse.map pyStrip).filter (fun c => c != "")))).take lim
    { status := "success", entries := commands, count := commands.length
      message := "Retrieved history entries" }

/-- Outcome of the `subprocess.run(["ros2", "node", "list"], ...)` call in
`src/flouri/completions/ros2.py`: either the process completed with a return
code and captured stdout, or the call raised (timeout, missing binary, other
exception). -/
inductive SubprocResult where
  | completed (returncode : Int) (stdout : String)
  | raised
deriving Repr, DecidableEq

/-- Python `str.startswith("/")` on the first character. -/
def startsWithSlash (s : String) : Bool :=
  match s.data with
  | [] => false
  | c :: _ => c == '/'

/-- Python `str.lstrip("/")`: drop every leading slash. -/
def lstripSlash (s : String) : String :=
  ⟨s.data.dropWhile (fun c => c == '/')⟩

/-- From `src/flouri/completions/ros2.py` (`_get_ros2_nodes`): on a
completed run with return code 0, keep each line whose stripped form is
non-empty and does NOT start with "/", stripped of leading slashes; in every
other case return the empty list. -/
def _get_ros2_nodes (res : SubprocResult) : List String :=
  match res with
  | SubprocResult.raised => []
  | SubprocResult.completed rc out =>
    if rc == 0 then
      ((splitNl out).filter
        (fun line => pyStrip line != "" && !(startsWithSlash (pyStrip line)))).map
        (fun line => lstripSlash (pyStrip line))
    else []

/-- Sample registry used to exercise the theorems on concrete inputs: a
`bash` skill with two tools and a `ros2` skill with one tool, mirroring the
scenario in spec section 8. -/
def regSample : SkillRegistry :=
  ⟨[⟨"bash", "Bash execution skill",
      [("execute_bash", "Run bash command"), ("get_user", "Get current user")]⟩,
    ⟨"ros2", "ROS2 introspection skill",
      [("ros2_topic_list", "List topics")]⟩]⟩

/-- Sample config state enabling only the `bash` skill, with working
persistence. -/
def cfgSample : ConfigManager := { enabled_skills := ["bash"] }

theorem addSkillList_idem (l : List String) (s : String) :
    addSkillList (addSkillList l s) s = addSkillList l s := by
  by_cases h : s ∈ l
  · simp [addSkillList, h]
  · simp [addSkillList, h]

/-- Claim C1: for a tool name no registered skill owns
(`get_skill_for_tool` returns none), `enable_tool` and `disable_tool` both
return a status error result whose message is of the Unknown-tool form, and
neither call changes the persisted config state. -/
theorem claim_C1 (reg : SkillRegistry) (c : ConfigManager) (t : String)
    (h : reg.get_skill_for_tool t = none) :
    (enable_tool reg c t).1.status = "error" ∧
    (enable_tool reg c t).1.message = "Unknown tool: " ++ t ∧
    (enable_tool reg c t).2 = c ∧
    (disable_tool reg c t).1.status = "error" ∧
    (disable_tool reg c t).1.message = "Unknown tool: " ++ t ∧
    (disable_tool reg c t).2 = c := by
  simp [enable_tool, disable_tool, h]

theorem claim_C1_witness :
    regSample.get_skill_for_tool "nonexistent_tool" = none ∧
    ((enable_tool regSample cfgSample "nonexistent_tool").1.status = "error" ∧
     (enable_tool regSample cfgSample "nonexistent_tool").1.message =
       "Unknown tool: " ++ "nonexistent_tool" ∧
     (enable_tool regSample cfgSample "nonexistent_tool").2 = cfgSample ∧
     (disable_tool regSample cfgSample "nonexistent_tool").1.status = "error" ∧
     (disable_tool regSample cfgSample "nonexistent_tool").1.message =
       "Unknown tool: " ++ "nonexistent_tool" ∧
     (disable_tool regSample cfgSample "nonexistent_tool").2 = cfgSample) :=
  ⟨by decide, claim_C1 regSample cfgSample "nonexistent_tool" (by decide)⟩

/-- Claim C2: when the owning skill resolves but persistence fails with
cause `e`, `enable_tool` returns a status error result with message
"Failed to enable tool: " followed by the cause, the persisted config is
unchanged, and a subsequent `list_enabled_tools` sees the same state as
before the attempt; symmetrically `disable_tool` with
"Failed to disable tool: ". The exception is absorbed, not re-raised: the
embedded operation is a total function into results. -/
theorem claim_C2 (reg : SkillRegistry) (c : ConfigManager) (t s e : String)
    (hs : reg.get_skill_for_tool t = some s) (hw : c.writeFail = some e) :
    (enable_tool reg c t).1.status = "error" ∧
    (enable_tool reg c t).1.message = "Failed to enable tool: " ++ e ∧
    (enable_tool reg c t).2 = c ∧
    list_enabled_tools (Except.ok reg) (enable_tool reg c t).2 =
      list_enabled_tools (Except.ok reg) c ∧
    (disable_tool reg c t).1.status = "error" ∧
    (disable_tool reg c t).1.message = "Failed to disable tool: " ++ e ∧
    (disable_tool reg c t).2 = c := by
  simp [enable_tool, disable_tool, ConfigManager.add_skill,
    ConfigManager.remove_skill, hs, hw]

theorem claim_C2_witness :
    (regSample.get_skill_for_tool "ros2_topic_list" = some "ros2" ∧
     ({ cfgSample with writeFail := some "permission denied" } :
        ConfigManager).writeFail = some "permission denied") ∧
    ((enable_tool regSample { cfgSample with writeFail := some "permission denied" }
        "ros2_topic_list").1.status = "error" ∧
     (enable_tool regSample { cfgSample with writeFail := some "permission denied" }
        "ros2_topic_list").1.message =
       "Failed to enable tool: " ++ "permission denied" ∧
     (enable_tool regSample { cfgSample with writeFail := some "permission denied" }
        "ros2_topic_list").2 =
       { cfgSample with writeFail := some "permission denied" } ∧
     list_enabled_tools (Except.ok regSample)
       (enable_tool regSample { cfgSample with writeFail := some "permission denied" }
        "ros2_topic_list").2 =
       list_enabled_tools (Except.ok regSample)
         { cfgSample with writeFail := some "permission denied" } ∧
     (disable_tool regSample { cfgSample with writeFail := some "permission denied" }
        "ros2_topic_list").1.status = "error" ∧
     (disable_tool regSample { cfgSample with writeFail := some "permission denied" }
        "ros2_topic_list").1.message =
       "Failed to disable tool: " ++ "permission denied" ∧
     (disable_tool regSample { cfgSample with writeFail := some "permission denied" }
        "ros2_topic_list").2 =
       { cfgSample with writeFail := some "permission denied" }) :=
  ⟨⟨by decide, by decide⟩,
   claim_C2 regSample { cfgSample with writeFail := some "permission denied" }
     "ros2_topic_list" "ros2" "permission denied" (by decide) (by decide)⟩

/-- Claim C3: when the owning skill resolves and persistence succeeds,
`enable_tool` returns status success, a message that mentions the skill
name, and an `enabled_tools` field freshly derived from the post-mutation
config (the config with the skill added), which is exactly the state the
call persists. -/
theorem claim_C3 (reg : SkillRegistry) (c : ConfigManager) (t s : String)
    (hs : reg.get_skill_for_tool t = some s)
    (hw : c.writeFail = none) (hr : c.readFail = none) :
    (enable_tool reg c t).1.status = "success" ∧
    (∃ a b, (enable_tool reg c t).1.message = a ++ (s ++ b)) ∧
    (enable_tool reg c t).2.enabled_skills = addSkillList c.enabled_skills s ∧
    (enable_tool reg c t).1.enabled_tools =
      some (reg.get_tool_names_for_skills (enable_tool reg c t).2.enabled_skills) := by
  refine ⟨?_, ⟨"Enabled skill ", " for tool " ++ t, ?_⟩, ?_, ?_⟩ <;>
    simp [enable_tool, ConfigManager.add_skill, _get_enabled_tool_names,
      ConfigManager.get_enabled_skills, hs, hw, hr]

theorem claim_C3_witness :
    (regSample.get_skill_for_tool "ros2_topic_list" = some "ros2" ∧
     cfgSample.writeFail = none ∧ cfgSample.readFail = none) ∧
    ((enable_tool regSample cfgSample "ros2_topic_list").1.status = "success" ∧
     (∃ a b, (enable_tool regSample cfgSample "ros2_topic_list").1.message =
        a ++ ("ros2" ++ b)) ∧
     (enable_tool regSample cfgSample "ros2_topic_list").2.enabled_skills =
       addSkillList cfgSample.enabled_skills "ros2" ∧
     (enable_tool regSample cfgSample "ros2_topic_list").1.enabled_tools =
       some (regSample.get_tool_names_for_skills
         (enable_tool regSample cfgSample "ros2_topic_list").2.enabled_skills)) :=
  ⟨⟨by decide, rfl, rfl⟩,
   claim_C3 regSample cfgSample "ros2_topic_list" "ros2" (by decide) rfl rfl⟩

/-- Claim C4: enabling is idempotent — with working persistence, calling
`enable_tool` twice in succession on a registered tool returns status
success both times, and the persisted state after the second call equals
the state after the first call. -/
theorem claim_C4 (reg : SkillRegistry) (c : ConfigManager) (t s : String)
    (hs : reg.get_skill_for_tool t = some s)
    (hw : c.writeFail = none) (hr : c.readFail = none) :
    (enable_tool reg c t).1.status = "success" ∧
    (enable_tool reg (enable_tool reg c t).2 t).1.status = "success" ∧
    (enable_tool reg (enable_tool reg c t).2 t).2 = (enable_tool reg c t).2 := by
  refine ⟨?_, ?_, ?_⟩ <;>
    simp [enable_tool, ConfigManager.add_skill, _get_enabled_tool_names,
      ConfigManager.get_enabled_skills, hs, hw, hr, addSkillList_idem]

theorem claim_C4_witness :
    (regSample.get_skill_for_tool "ros2_topic_list" = some "ros2" ∧
     cfgSample.writeFail = none ∧ cfgSample.readFail = none) ∧
    ((enable_tool regSample cfgSample "ros2_topic_list").1.status = "success" ∧
     (enable_tool regSample
        (enable_tool regSample cfgSample "ros2_topic_list").2
        "ros2_topic_list").1.status = "success" ∧
     (enable_tool regSample
        (enable_tool regSample cfgSample "ros2_topic_list").2
        "ros2_topic_list").2 =
       (enable_tool regSample cfgSample "ros2_topic_list").2) :=
  ⟨⟨by decide, rfl, rfl⟩,
   claim_C4 regSample cfgSample "ros2_topic_list" "ros2" (by decide) rfl rfl⟩

/-- Claim C5: `list_enabled_tools` never raises — it is a total function on
config states. When reading the enabled-skill set and deriving tool names
succeed it returns exactly the status success payload with `enabled_tools`
and `count` equal to the length of `enabled_tools`; when reading or deriving
fails it returns a status error result carrying a message. -/
theorem claim_C5 (regLoad : Except String SkillRegistry) (c : ConfigManager) :
    (∀ names, _get_enabled_tool_names regLoad c = Except.ok names →
        list_enabled_tools regLoad c =
          { status := "success", message := "Listed enabled tools"
            enabled_tools := some names, count := some names.length }) ∧
    (∀ e, _get_enabled_tool_names regLoad c = Except.error e →
        (list_enabled_tools regLoad c).status = "error" ∧
        (list_enabled_tools regLoad c).message =
          "Failed to list enabled tools: " ++ e) := by
  refine ⟨fun names h => ?_, fun e h => ?_⟩
  · simp [list_enabled_tools, h]
  · simp [list_enabled_tools, h]

theorem claim_C5_witness :
    (_get_enabled_tool_names (Except.ok regSample) cfgSample =
       Except.ok ["execute_bash", "get_user"] ∧
     _get_enabled_tool_names (Except.ok regSample)
       { cfgSample with readFail := some "config error" } =
       Except.error "config error") ∧
    (list_enabled_tools (Except.ok regSample) cfgSample =
       { status := "success", message := "Listed enabled tools"
         enabled_tools := some ["execute_bash", "get_user"]
         count := some (["execute_bash", "get_user"] : List String).length } ∧
     (list_enabled_tools (Except.ok regSample)
        { cfgSample with readFail := some "config error" }).status = "error" ∧
     (list_enabled_tools (Except.ok regSample)
        { cfgSample with readFail := some "config error" }).message =
       "Failed to list enabled tools: " ++ "config error") :=
  ⟨⟨rfl, rfl⟩,
   ⟨(claim_C5 (Except.ok regSample) cfgSample).1
      ["execute_bash", "get_user"] rfl,
    (claim_C5 (Except.ok regSample)
      { cfgSample with readFail := some "config error" }).2
      "config error" rfl⟩⟩

/-- Claim C6: `get_available_tools` returns the tool name to description
mapping sourced from `get_all_tools_info` with its count on success, and on
registry failure returns status error with `available_tools` present and
equal to the empty mapping and `count` equal to zero. -/
theorem claim_C6 (regLoad : Except String SkillRegistry) :
    (∀ reg, regLoad = Except.ok reg →
        get_available_tools regLoad =
          { status := "success", message := "Listed available tools"
            available_tools := some (reg.get_all_tools_info.map (fun x => (x.1, x.2.1)))
            count := some (reg.get_all_tools_info.map (fun x => (x.1, x.2.1))).length }) ∧
    (∀ e, regLoad = Except.error e →
        get_available_tools regLoad =
          { status := "error", message := "Failed to get available tools: " ++ e
            available_tools := some [], count := some 0 }) := by
  refine ⟨fun reg h => ?_, fun e h => ?_⟩
  · simp [get_available_tools, h]
  · simp [get_available_tools, h]

theorem claim_C6_witness :
    ((Except.ok regSample : Except String SkillRegistry) = Except.ok regSample ∧
     (Except.error "no registry" : Except String SkillRegistry) =
       Except.error "no registry") ∧
    (get_available_tools (Except.ok regSample) =
       { status := "success", message := "Listed available tools"
         available_tools :=
           some (regSample.get_all_tools_info.map (fun x => (x.1, x.2.1)))
         count :=
           some (regSample.get_all_tools_info.map (fun x => (x.1, x.2.1))).length } ∧
     get_available_tools (Except.error "no registry") =
       { status := "error", message := "Failed to get available tools: " ++ "no registry"
         available_tools := some [], count := some 0 }) :=
  ⟨⟨rfl, rfl⟩,
   ⟨(claim_C6 (Except.ok regSample)).1 regSample rfl,
    (claim_C6 (Except.error "no registry")).2 "no registry" rfl⟩⟩

theorem dedupKeepFirst_sublist (l : List String) :
    List.Sublist (dedupKeepFirst l) l := by
  induction l using dedupKeepFirst.induct with
  | case1 => rw [dedupKeepFirst]
  | case2 x xs ih =>
    rw [dedupKeepFirst]
    exact List.Sublist.cons₂ x (ih.trans (List.filter_sublist xs))

theorem dedupKeepFirst_nodup (l : List String) :
    (dedupKeepFirst l).Nodup := by
  induction l using dedupKeepFirst.induct with
  | case1 => rw [dedupKeepFirst]; exact List.nodup_nil
  | case2 x xs ih =>
    rw [dedupKeepFirst, List.nodup_cons]
    refine ⟨fun hmem => ?_, ih⟩
    have hx := (dedupKeepFirst_sublist (xs.filter (fun y => y != x))).subset hmem
    simp [List.mem_filter] at hx

/-- Claim C7: when loading the ConfigManager or reading the enabled-skill
set fails, `get_enabled_tool_names` falls back to the registry's full list
of all known tool names — every tool rather than none. -/
theorem claim_C7 (reg : SkillRegistry) (e : String) :
    get_enabled_tool_names reg (Except.error e) = reg.get_all_tool_names := rfl

/-- Claim C8: `get_bash_tools` honours an explicit enabled-tool-name
override — with `some ts` the result is exactly the registry's resolution
of `ts` and is independent of the config-derived names — and with `none`
the enabled names are derived from config via `get_enabled_tool_names`
before resolution. -/
theorem claim_C8 (reg : SkillRegistry)
    (configLoad : Except String (List String)) (ts : List String) :
    get_bash_tools reg configLoad (some ts) = reg.get_enabled_tools ts ∧
    (∀ configLoad2, get_bash_tools reg configLoad2 (some ts) =
        get_bash_tools reg configLoad (some ts)) ∧
    get_bash_tools reg configLoad none =
      reg.get_enabled_tools (get_enabled_tool_names reg configLoad) :=
  ⟨rfl, fun _ => rfl, rfl⟩

/-- Claim C9: a successful `read_bash_history` returns entries with no
duplicates, in most-recent-first order (a sublist of the stripped lines read
backwards), at most the clamped limit `min (max limit 1) 1000` of them, and
a `count` equal to the number of entries; a missing history file yields a
status success result with zero entries. -/
theorem claim_C9 (limit : Int) (lines : List String) :
    (read_bash_history limit (HistoryFile.readable lines)).status = "success" ∧
    (read_bash_history limit (HistoryFile.readable lines)).entries.Nodup ∧
    (read_bash_history limit (HistoryFile.readable lines)).count =
      (read_bash_history limit (HistoryFile.readable lines)).entries.length ∧
    (((read_bash_history limit (HistoryFile.readable lines)).entries.length : Int) ≤
      min (max limit 1) 1000) ∧
    List.Sublist (read_bash_history limit (HistoryFile.readable lines)).entries
      (lines.reverse.map pyStrip) ∧
    read_bash_history limit HistoryFile.missing =
      { status := "success", entries := [], count := 0
        message := "History file does not exist yet" } := by
  refine ⟨rfl, ?_, rfl, ?_, ?_, rfl⟩
  · exact List.Nodup.sublist (List.take_sublist _ _) (dedupKeepFirst_nodup _)
  · have h1 : (read_bash_history limit (HistoryFile.readable lines)).entries.length ≤
        (if limit < 1 then 1 else if limit > 1000 then 1000 else limit.toNat) :=
      List.length_take_le _ _
    have h2 : (((if limit < 1 then 1 else if limit > 1000 then 1000 else limit.toNat) :
        Nat) : Int) = min (max limit 1) 1000 := by
      split_ifs <;> omega
    omega
  · exact (List.take_sublist _ _).trans
      ((dedupKeepFirst_sublist _).trans (List.filter_sublist _))

/-- Claim C10: on a completed `ros2 node list` run with return code 0 whose
every non-empty (stripped) output line begins with "/", `_get_ros2_nodes`
returns the empty list — its filter keeps only lines that do not start with
"/", so standard ros2 output yields no completion candidates. -/
theorem claim_C10 (stdout : String)
    (h : (splitNl stdout).all
        (fun l => (pyStrip l == "") || startsWithSlash (pyStrip l)) = true) :
    _get_ros2_nodes (SubprocResult.completed 0 stdout) = [] := by
  have h' := List.all_eq_true.mp h
  have hfil : (splitNl stdout).filter
      (fun line => pyStrip line != "" && !(startsWithSlash (pyStrip line))) = [] := by
    refine List.filter_eq_nil_iff.mpr (fun a ha => ?_)
    have hla := h' a ha
    cases hps : (pyStrip a == "") <;>
      cases hsw : startsWithSlash (pyStrip a) <;> simp_all
  show ((splitNl stdout).filter
      (fun line => pyStrip line != "" && !(startsWithSlash (pyStrip line)))).map
      (fun line => lstripSlash (pyStrip line)) = []
  rw [hfil, List.map_nil]

theorem claim_C10_witness :
    (splitNl "/talker\n/listener").all
        (fun l => (pyStrip l == "") || startsWithSlash (pyStrip l)) = true ∧
    _get_ros2_nodes (SubprocResult.completed 0 "/talker\n/listener") = [] :=
  ⟨by decide, claim_C10 "/talker\n/listener" (by decide)⟩

end Flouri
